import Mathlib

/-!
Verification of the GitOps restore orchestrator
(`shared/restore/gitops_restore.py`).

The Python module is embedded shallowly:

* Python `dict[str, str]` values (labels, annotations) become ordered
  association lists `List (String × String)`; `dictSet`/`dictUpdate` mirror
  `d[k] = v` / `d.update(...)` (replace-in-place when the key exists,
  append otherwise, exactly as CPython's insertion-ordered dicts behave).
* A Kubernetes resource dict becomes `Resource`; keys that may be absent
  become `Option` fields.  The payload under `spec` is never inspected by
  the orchestrator, so it is kept as an opaque `Option String`.
* The stubbed external collaborators (object store, cluster API, git
  repository, GitOps controller) are exactly the interfaces of spec §6/§9;
  their outcomes are collected in an `Env` record, and the orchestrator
  logic from the source is a function of that record.
* `datetime` values do not influence any control flow; wall-clock fields
  (`start_time`, `end_time`, `duration`, `estimated_completion`) are
  omitted from the embedding.  The timestamp string written into the
  `restored-at` annotation is passed in explicitly as `now`.
* Python floats only occur in `percent_complete`; the embedding uses `ℚ`.
  Every value actually computed is `k/7 * 100` for `k ≤ 6` or the literals
  `0.0` / `100.0`, for which float and exact arithmetic agree on the
  order/equality facts proved below.
-/

namespace GitopsRestore

/-! ## Ordered string dictionaries (CPython `dict[str, str]`) -/

/-- Membership `d.any (·.1 == k)` — Python `k in d`. -/
def dictMemKey (d : List (String × String)) (k : String) : Bool :=
  d.any (fun p => p.1 == k)

/-- Python `d[k] = v` on an insertion-ordered dict: replace the value in
place when the key is present, append `(k, v)` otherwise. -/
def dictSet (d : List (String × String)) (k v : String) :
    List (String × String) :=
  if dictMemKey d k then d.map (fun p => if p.1 == k then (k, v) else p)
  else d ++ [(k, v)]

/-- Python `d.update(kvs)`: apply `dictSet` for each pair in order. -/
def dictUpdate (d : List (String × String)) (kvs : List (String × String)) :
    List (String × String) :=
  kvs.foldl (fun acc kv => dictSet acc kv.1 kv.2) d

/-- Python `d.get(k)` restricted to present values. -/
def dictLookup (d : List (String × String)) (k : String) : Option String :=
  (d.find? (fun p => p.1 == k)).map (fun p => p.2)

theorem dictLookup_map_replace (d : List (String × String)) (k v : String)
    (h : dictMemKey d k = true) :
    dictLookup (d.map (fun p => if p.1 == k then (k, v) else p)) k = some v := by
  induction d with
  | nil => simp [dictMemKey] at h
  | cons a t ih =>
    by_cases ha : a.1 = k
    · simp [dictLookup, ha, List.find?_cons_of_pos]
    · have h' : dictMemKey t k = true := by
        simpa [dictMemKey, ha] using h
      simpa [dictLookup, ha, List.find?_cons_of_neg] using ih h'

theorem dictLookup_append_single (d : List (String × String)) (k v : String)
    (h : dictMemKey d k = false) :
    dictLookup (d ++ [(k, v)]) k = some v := by
  induction d with
  | nil => simp [dictLookup, List.find?_cons_of_pos]
  | cons a t ih =>
    have ha : ¬ a.1 = k := by
      intro hk; simp [dictMemKey, hk] at h
    have h' : dictMemKey t k = false := by
      simpa [dictMemKey, ha] using h
    simpa [dictLookup, ha, List.find?_cons_of_neg] using ih h'

theorem dictLookup_dictSet_self (d : List (String × String)) (k v : String) :
    dictLookup (dictSet d k v) k = some v := by
  unfold dictSet
  by_cases h : dictMemKey d k
  · simpa [h] using dictLookup_map_replace d k v h
  · simp only [Bool.not_eq_true] at h
    simpa [h] using dictLookup_append_single d k v h

theorem dictLookup_map_replace_other (d : List (String × String))
    (k v k2 : String) (hne : k2 ≠ k) :
    dictLookup (d.map (fun p => if p.1 == k then (k, v) else p)) k2 =
      dictLookup d k2 := by
  induction d with
  | nil => simp [dictLookup]
  | cons a t ih =>
    by_cases ha : a.1 = k
    · have : ¬ a.1 = k2 := by rw [ha]; exact Ne.symm hne
      simpa [dictLookup, ha, Ne.symm hne, this, List.find?_cons_of_neg] using ih
    · have hhead : (if a.1 == k then (k, v) else a) = a := by simp [ha]
      by_cases ha2 : a.1 = k2
      · simp only [List.map_cons, hhead]
        simp [dictLookup, ha2, List.find?_cons_of_pos]
      · simp only [List.map_cons, hhead]
        simpa [dictLookup, ha2, List.find?_cons_of_neg] using ih

theorem dictLookup_append_single_other (d : List (String × String))
    (k v k2 : String) (hne : k2 ≠ k) :
    dictLookup (d ++ [(k, v)]) k2 = dictLookup d k2 := by
  induction d with
  | nil => simp [dictLookup, Ne.symm hne, List.find?_cons_of_neg]
  | cons a t ih =>
    by_cases ha2 : a.1 = k2
    · simp [dictLookup, ha2, List.find?_cons_of_pos]
    · simpa [dictLookup, ha2, List.find?_cons_of_neg] using ih

theorem dictLookup_dictSet_other (d : List (String × String)) (k v k2 : String)
    (hne : k2 ≠ k) : dictLookup (dictSet d k v) k2 = dictLookup d k2 := by
  unfold dictSet
  by_cases h : dictMemKey d k
  · simpa [h] using dictLookup_map_replace_other d k v k2 hne
  · simp only [Bool.not_eq_true] at h
    simpa [h] using dictLookup_append_single_other d k v k2 hne

theorem dictMemKey_eq_isSome (d : List (String × String)) (k : String) :
    dictMemKey d k = (dictLookup d k).isSome := by
  induction d with
  | nil => simp [dictMemKey, dictLookup]
  | cons a t ih =>
    by_cases ha : a.1 = k
    · simp [dictMemKey, dictLookup, ha, List.find?_cons_of_pos]
    · have hb : (a.1 == k) = false := by simp [ha]
      simpa [dictMemKey, dictLookup, hb, List.find?_cons_of_neg] using ih

theorem dictMemKey_dictSet_self (d : List (String × String)) (k v : String) :
    dictMemKey (dictSet d k v) k = true := by
  rw [dictMemKey_eq_isSome, dictLookup_dictSet_self]; rfl

theorem dictMemKey_dictSet_other (d : List (String × String))
    (k v k2 : String) (hne : k2 ≠ k) :
    dictMemKey (dictSet d k v) k2 = dictMemKey d k2 := by
  rw [dictMemKey_eq_isSome, dictMemKey_eq_isSome,
    dictLookup_dictSet_other d k v k2 hne]

/-- Every entry of `d` whose key is `k` carries the value `v`. -/
def dictValAt (d : List (String × String)) (k v : String) : Prop :=
  ∀ p ∈ d, p.1 = k → p.2 = v

theorem not_memKey_of_false {d : List (String × String)} {k : String}
    (h : dictMemKey d k = false) : ∀ p ∈ d, p.1 ≠ k := by
  intro p hp hpk
  have : dictMemKey d k = true := by
    unfold dictMemKey
    simp only [List.any_eq_true, beq_iff_eq]
    exact ⟨p, hp, hpk⟩
  rw [h] at this; cases this

theorem dictValAt_dictSet_self (d : List (String × String)) (k v : String) :
    dictValAt (dictSet d k v) k v := by
  unfold dictSet
  by_cases h : dictMemKey d k
  · simp only [h, if_true]
    intro p hp hpk
    simp only [List.mem_map] at hp
    obtain ⟨q, hq, himg⟩ := hp
    by_cases hqk : q.1 = k
    · simp only [hqk, beq_self_eq_true, if_true] at himg
      rw [← himg]
    · simp only [beq_iff_eq, hqk, if_false] at himg
      rw [← himg] at hpk
      exact absurd hpk hqk
  · simp only [Bool.not_eq_true] at h
    simp only [h, Bool.false_eq_true, if_false]
    intro p hp hpk
    rcases List.mem_append.mp hp with h1 | h2
    · exact absurd hpk (not_memKey_of_false h p h1)
    · simp only [List.mem_singleton] at h2
      rw [h2]

theorem dictValAt_dictSet_other (d : List (String × String))
    (k v k2 w : String) (hne : k2 ≠ k) (hd : dictValAt d k2 w) :
    dictValAt (dictSet d k v) k2 w := by
  unfold dictSet
  by_cases h : dictMemKey d k
  · simp only [h, if_true]
    intro p hp hpk
    simp only [List.mem_map] at hp
    obtain ⟨q, hq, himg⟩ := hp
    by_cases hqk : q.1 = k
    · simp only [hqk, beq_self_eq_true, if_true] at himg
      rw [← himg] at hpk
      simp only at hpk
      exact absurd hpk.symm hne
    · simp only [beq_iff_eq, hqk, if_false] at himg
      rw [← himg] at hpk ⊢
      exact hd q hq hpk
  · simp only [Bool.not_eq_true] at h
    simp only [h, Bool.false_eq_true, if_false]
    intro p hp hpk
    rcases List.mem_append.mp hp with h1 | h2
    · exact hd p h1 hpk
    · simp only [List.mem_singleton] at h2
      rw [h2] at hpk
      simp only at hpk
      exact absurd hpk.symm hne

theorem map_replace_eq_self (d : List (String × String)) (k v : String)
    (hval : dictValAt d k v) :
    d.map (fun p => if p.1 == k then (k, v) else p) = d := by
  induction d with
  | nil => rfl
  | cons a t ih =>
    obtain ⟨a1, a2⟩ := a
    have ha : (if a1 == k then (k, v) else (a1, a2)) = (a1, a2) := by
      by_cases hak : a1 = k
      · have hv : a2 = v := hval (a1, a2) (by simp) hak
        simp [hak, hv]
      · simp [hak]
    simp only [List.map_cons]
    rw [ha, ih (fun p hp hpk => hval p (List.mem_cons_of_mem (a1, a2) hp) hpk)]

theorem dictSet_eq_self (d : List (String × String)) (k v : String)
    (hmem : dictMemKey d k = true) (hval : dictValAt d k v) :
    dictSet d k v = d := by
  unfold dictSet
  simp only [hmem, if_true]
  exact map_replace_eq_self d k v hval

/-! ## Enumerations (`RestoreMode`, `RestorePhase`, `DRScenario`) -/

/-- Enum `RestoreMode` — restore operation modes. -/
inductive RestoreMode
  | full_cluster
  | selective
  | namespace_mode
  | application
  | configuration
deriving DecidableEq

/-- Enum `RestorePhase` — restore operation phases. -/
inductive RestorePhase
  | planning
  | validation_phase
  | preparation
  | gitops_sync
  | verification
  | cleanup
  | completed
  | failed
deriving DecidableEq

/-- Enum `DRScenario` — disaster recovery scenarios. -/
inductive DRScenario
  | cluster_rebuild
  | namespace_recovery
  | data_corruption
  | configuration_rollback
  | cross_cluster_migration
deriving DecidableEq

/-- The `.value` string of the Python `DRScenario` enum member. -/
def DRScenario.value : DRScenario → String
  | .cluster_rebuild => "cluster_rebuild"
  | .namespace_recovery => "namespace_recovery"
  | .data_corruption => "data_corruption"
  | .configuration_rollback => "configuration_rollback"
  | .cross_cluster_migration => "cross_cluster_migration"

/-! ## Requests and resources -/

/-- Record `RestoreRequest` — the dict-valued optional fields that the
orchestrator never reads (`resource_filters`, `gitops_config`,
`validation_config`, `security_context`, `metadata`) are omitted. -/
structure RestoreRequest where
  restore_id : String
  backup_id : String
  source_cluster : String
  target_cluster : String
  restore_mode : RestoreMode
  dr_scenario : DRScenario
  target_namespaces : Option (List String) := none
  dry_run : Bool := false
deriving DecidableEq

/-- The `metadata` sub-dict of a Kubernetes resource.  Absent keys are
`none`; `labels`/`annotations` distinguish an absent key (`none`) from an
empty dict (`some []`), which matters for the aliasing analysis of the
transformer. -/
structure ResourceMeta where
  name : Option String := none
  namespace_field : Option String := none
  labels : Option (List (String × String)) := none
  annotations : Option (List (String × String)) := none
deriving DecidableEq

/-- A backed-up Kubernetes resource dict.  The orchestrator only inspects
`apiVersion`, `kind` and `metadata`; the rest of the dict (`spec`, …) is
kept opaque. -/
structure Resource where
  apiVersion : Option String := none
  kind : Option String := none
  metadata : Option ResourceMeta := none
  spec : Option String := none
deriving DecidableEq

/-- The label pairs added by `_apply_gitops_transformations`, in the
order the source's `update` call supplies them. -/
def labelUpdates (request : RestoreRequest) : List (String × String) :=
  [("restore.gitops.io/restore-id", request.restore_id),
   ("restore.gitops.io/source-backup", request.backup_id),
   ("restore.gitops.io/dr-scenario", request.dr_scenario.value)]

/-- The annotation pairs added by `_apply_gitops_transformations`;
`now` stands for `datetime.utcnow().isoformat()`. -/
def annotationUpdates (request : RestoreRequest) (now : String) :
    List (String × String) :=
  [("restore.gitops.io/restored-at", now),
   ("restore.gitops.io/source-cluster", request.source_cluster),
   ("restore.gitops.io/target-cluster", request.target_cluster)]

/-- The namespace-mapping step of `_apply_gitops_transformations`:
`if request.target_namespaces and transformed['metadata'].get('namespace'):
  if len(request.target_namespaces) == 1: …`.
Python truthiness: `None` and `[]` are falsy for the list, `None` and `""`
for the namespace string. -/
def remapNamespace (tns : Option (List String)) (ns : Option String) :
    Option String :=
  match tns with
  | none => ns
  | some l =>
    if l = [] then ns
    else
      match ns with
      | none => none
      | some s =>
        if s = "" then some s
        else if l.length = 1 then some (l.headD "") else some s

/-- Source `GitOpsRestoreOrchestrator._apply_gitops_transformations`.

The source does `transformed = resource.copy()` — a SHALLOW copy, so when
the resource already has a `metadata` dict, `transformed['metadata']` is
the very same object and every nested mutation (creating the
`labels`/`annotations` keys, the two `update` calls, the namespace
rewrite) is visible through the original resource as well.  The embedding
therefore returns a pair: the transformed manifest, and the state of the
input resource as observable after the call (identical to the input only
when the input had no `metadata` key). -/
def apply_gitops_transformations (request : RestoreRequest) (now : String)
    (resource : Resource) : Resource × Resource :=
  let meta0 := resource.metadata.getD {}
  let labels1 := dictUpdate (meta0.labels.getD []) (labelUpdates request)
  let ann1 := dictUpdate (meta0.annotations.getD [])
    (annotationUpdates request now)
  let ns1 := remapNamespace request.target_namespaces meta0.namespace_field
  let meta1 : ResourceMeta :=
    { name := meta0.name, namespace_field := ns1,
      labels := some labels1, annotations := some ann1 }
  let transformed := { resource with metadata := some meta1 }
  let resource_after :=
    match resource.metadata with
    | none => resource
    | some _ => { resource with metadata := some meta1 }
  (transformed, resource_after)

/-- Source `_transform_to_gitops`: transform each backed-up resource in order
(the manifest list is built from the first components). -/
def transform_to_gitops (request : RestoreRequest) (now : String)
    (resources : List Resource) : List Resource :=
  resources.map (fun r => (apply_gitops_transformations request now r).1)

/-! ## Orchestrator data model -/

/-- The backup metadata record returned by `_load_backup_metadata`
(`resources` is the per-kind count dict). -/
structure BackupMetadata where
  backup_id : String
  cluster_name : String
  timestamp : String
  resources : List (String × Nat)
  size : Nat
  version : String
deriving DecidableEq

/-- Record `RestoreProgress` — wall-clock fields (`start_time`,
`estimated_completion`) are omitted; `percent_complete` is exact `ℚ`
(see the header comment). -/
structure RestoreProgress where
  phase : RestorePhase
  percent_complete : ℚ
  current_step : String
  steps_completed : Nat
  total_steps : Nat
  resources_processed : Nat := 0
  resources_total : Nat := 0
  errors : List String := []
  warnings : List String := []
deriving DecidableEq

/-- Record `RestoreResult` — wall-clock fields (`start_time`, `end_time`,
`duration`) are omitted; `validation_report` is always the empty dict `{}`
in the source and is omitted; `recommendations` is never set and is
omitted. -/
structure RestoreResult where
  restore_id : String
  success : Bool
  phase : RestorePhase
  resources_restored : Nat
  resources_failed : Nat
  git_commits : List String
  error_summary : Option String := none
deriving DecidableEq

/-- The restore plan built by `_create_restore_plan`
(`estimated_duration`, `phases`, `dependencies`, `conflicts` are computed
but never read back by the orchestrator and are omitted). -/
structure RestorePlan where
  restore_id : String
  total_resources : Nat
  total_steps : Nat
  requires_cluster_bootstrap : Bool

/-- Source `_create_restore_plan`: `total_resources` sums the per-kind counts of
the backup metadata; `total_steps` is the literal 7; cluster-rebuild sets
`requires_cluster_bootstrap`. -/
def create_restore_plan (request : RestoreRequest) (md : BackupMetadata) :
    RestorePlan :=
  { restore_id := request.restore_id
    total_resources := (md.resources.map (fun p => p.2)).sum
    total_steps := 7
    requires_cluster_bootstrap :=
      request.dr_scenario = DRScenario.cluster_rebuild }

/-- Externally visible operations performed against the GitOps repository
and the GitOps controller.  Local scratch-directory work (`mkdir`,
`rmtree`, manifest file copies) touches neither the repository nor the
cluster and is not recorded. -/
inductive Effect
  | clone
  | commit_push (hash : String)
  | trigger_sync (cluster : String)
  | notify (restore_id : String)
deriving DecidableEq

/-- Outcomes of the external collaborators of spec §6.  Every stubbed
helper of the source (`# This would integrate with MinIO …`, `# This
would use kubernetes client …`) is one field here; the orchestrator logic
under verification is a function of this record.

* `load_backup_metadata` — `_load_backup_metadata` (not-found = `none`,
  the source's falsy-metadata branch);
* `validate_cluster_access` / `validate_gitops_access` /
  `validate_restore_permissions` — the three boolean validators;
* `check_restore_conflicts` — the conflict list returned by
  `_check_restore_conflicts` (the stub always returns `[]`);
* `backup_resources` — `_load_backup_resources`;
* `clone_result` — `_clone_gitops_repo` (`error` = the raised exception);
* `commit_result` — `_commit_gitops_manifests` commit+push (`ok hash` =
  the returned `commit.hexsha`);
* `auto_sync` — `config['gitops']['auto_sync']` (default `True`);
* `now` — `datetime.utcnow().isoformat()` for the `restored-at`
  annotation. -/
structure Env where
  load_backup_metadata : String → Option BackupMetadata
  validate_cluster_access : String → Bool
  validate_gitops_access : Bool
  validate_restore_permissions : Bool
  check_restore_conflicts : List String
  backup_resources : List Resource
  clone_result : Except String Unit
  commit_result : Except String String
  auto_sync : Bool
  now : String

/-- What one phase call produced: the successive states of the (mutable)
`progress` object, the external effects, the raised exception message (if
any), and the progress value once the phase returned or raised. -/
structure PhaseOut where
  snaps : List RestoreProgress
  effects : List Effect
  err : Option String
  progress : RestoreProgress

/-- The recurring source pattern
`progress.steps_completed = k;
 progress.percent_complete = (progress.steps_completed /
 progress.total_steps) * 100`. -/
def completeStep (p : RestoreProgress) (k : Nat) : RestoreProgress :=
  let p1 := { p with steps_completed := k }
  { p1 with percent_complete :=
      (p1.steps_completed : ℚ) / (p1.total_steps : ℚ) * 100 }

/-- Source `_validate_gitops_manifests`: raise at the first manifest missing
`apiVersion`, `kind` or `metadata` (checked in that order). -/
def validate_gitops_manifests (manifests : List Resource) :
    Except String Unit :=
  match manifests.findSome? (fun m =>
    if m.apiVersion = none then some "Manifest missing apiVersion"
    else if m.kind = none then some "Manifest missing kind"
    else if m.metadata = none then some "Manifest missing metadata"
    else none) with
  | some msg => Except.error msg
  | none => Except.ok ()

/-- Source `_phase_planning`. -/
def phase_planning (env : Env) (request : RestoreRequest)
    (progress : RestoreProgress) : PhaseOut :=
  let p1 := { progress with
    phase := RestorePhase.planning,
    current_step := "Analyzing backup and planning restore" }
  match env.load_backup_metadata request.backup_id with
  | none =>
    ⟨[p1], [],
      some ("Backup " ++ request.backup_id ++ " not found or inaccessible"),
      p1⟩
  | some md =>
    let plan := create_restore_plan request md
    let p2 := { p1 with
      resources_total := plan.total_resources,
      total_steps := plan.total_steps }
    let p3 := completeStep p2 1
    ⟨[p1, p3], [], none, p3⟩

/-- Source `_phase_validation`. -/
def phase_validation (env : Env) (request : RestoreRequest)
    (progress : RestoreProgress) : PhaseOut :=
  let p1 := { progress with
    phase := RestorePhase.validation_phase,
    current_step := "Validating cluster and GitOps repository" }
  if env.validate_cluster_access request.target_cluster = false then
    ⟨[p1], [],
      some ("Cannot access target cluster: " ++ request.target_cluster), p1⟩
  else if env.validate_gitops_access = false then
    ⟨[p1], [], some "Cannot access GitOps repository", p1⟩
  else if env.validate_restore_permissions = false then
    ⟨[p1], [], some "Insufficient permissions for restore operation", p1⟩
  else
    let conflicts := env.check_restore_conflicts
    let p2 :=
      if conflicts ≠ [] ∧ request.dr_scenario ≠ DRScenario.cluster_rebuild
      then { p1 with warnings :=
        p1.warnings ++ conflicts.map (fun c => "Conflict detected: " ++ c) }
      else p1
    let p3 := completeStep p2 2
    ⟨[p1, p2, p3], [], none, p3⟩

/-- Source `_phase_preparation`.  `_generate_cluster_config` is pure and its
result is never read by a later phase, so it is not materialised. -/
def phase_preparation (env : Env) (request : RestoreRequest)
    (progress : RestoreProgress) : PhaseOut :=
  let p1 := { progress with
    phase := RestorePhase.preparation,
    current_step := "Preparing GitOps manifests" }
  match env.clone_result with
  | Except.error e => ⟨[p1], [Effect.clone], some e, p1⟩
  | Except.ok _ =>
    match validate_gitops_manifests
      (transform_to_gitops request env.now env.backup_resources) with
    | Except.error e => ⟨[p1], [Effect.clone], some e, p1⟩
    | Except.ok _ =>
      let p2 := completeStep p1 3
      ⟨[p1, p2], [Effect.clone], none, p2⟩

/-- Source `_phase_gitops_sync`.  The 60 per-second `current_step` updates of
`_monitor_gitops_sync` are collapsed into one (they only rewrite
`current_step`). -/
def phase_gitops_sync (env : Env) (request : RestoreRequest)
    (progress : RestoreProgress) : PhaseOut :=
  let p1 := { progress with
    phase := RestorePhase.gitops_sync,
    current_step := "Synchronizing GitOps manifests" }
  match env.commit_result with
  | Except.error e => ⟨[p1], [], some e, p1⟩
  | Except.ok hash =>
    let effects := [Effect.commit_push hash] ++
      (if env.auto_sync then [Effect.trigger_sync request.target_cluster]
       else [])
    let p2 := { p1 with
      current_step := "GitOps sync in progress (60/60s)" }
    let p3 := completeStep p2 4
    ⟨[p1, p2, p3], effects, none, p3⟩

/-- Source `_phase_verification`.  The ready-wait, the health report, the
optional functional tests and `_generate_verification_report` have no
failure path in the source and their results are never stored, so they
leave no observable trace beyond `current_step`. -/
def phase_verification (_env : Env) (_request : RestoreRequest)
    (progress : RestoreProgress) : PhaseOut :=
  let p1 := { progress with
    phase := RestorePhase.verification,
    current_step := "Verifying restored resources" }
  let p2 := completeStep p1 5
  ⟨[p1, p2], [], none, p2⟩

/-- Source `_phase_cleanup`: scratch-directory removal and temporary-namespace
cleanup are local/no-ops; the completion notification is the only
external effect. -/
def phase_cleanup (_env : Env) (request : RestoreRequest)
    (progress : RestoreProgress) : PhaseOut :=
  let p1 := { progress with
    phase := RestorePhase.cleanup,
    current_step := "Cleaning up temporary resources" }
  let p2 := completeStep p1 6
  ⟨[p1, p2], [Effect.notify request.restore_id], none, p2⟩

/-- Sequencing of phases inside `_execute_restore`'s `try`: once a phase
raises, the later phases do not run. -/
def andThen (acc : PhaseOut) (f : RestoreProgress → PhaseOut) : PhaseOut :=
  match acc with
  | ⟨snaps1, effects1, some e, p1⟩ => ⟨snaps1, effects1, some e, p1⟩
  | ⟨snaps1, effects1, none, p1⟩ =>
    match f p1 with
    | ⟨snaps2, effects2, err2, p2⟩ =>
      ⟨snaps1 ++ snaps2, effects1 ++ effects2, err2, p2⟩

/-- Everything one call of `_execute_restore` produced. -/
structure RunOut where
  snaps : List RestoreProgress
  effects : List Effect
  raised : Option String
  raised_in : Option RestorePhase
  progress : RestoreProgress
  result : RestoreResult

/-- The `try` body of `_execute_restore`: the six phases in order.
`execute_restore` below adds the success epilogue and the `except`
handler; `raised_in` records `progress.phase` at the moment the
exception escaped (each phase sets `progress.phase` on entry before it
can raise). -/
def chainPhases (env : Env) (request : RestoreRequest)
    (progress0 : RestoreProgress) : PhaseOut :=
  andThen (andThen (andThen (andThen (andThen
    (phase_planning env request progress0)
    (phase_validation env request))
    (phase_preparation env request))
    (phase_gitops_sync env request))
    (phase_verification env request))
    (phase_cleanup env request)

/-- The epilogue of `_execute_restore`: the success path (Completed,
`percent = 100`) or the `except` handler (Failed, error recorded). -/
def assemble (request : RestoreRequest) (progress0 : RestoreProgress)
    (b : PhaseOut) : RunOut :=
  match b.err with
  | none =>
    let pc := { b.progress with
      phase := RestorePhase.completed,
      percent_complete := 100,
      current_step := "Restore completed successfully" }
    { snaps := progress0 :: b.snaps ++ [pc]
      effects := b.effects
      raised := none
      raised_in := none
      progress := pc
      result := {
        restore_id := request.restore_id, success := true,
        phase := RestorePhase.completed,
        resources_restored := pc.resources_processed,
        resources_failed := pc.errors.length,
        git_commits := [], error_summary := none } }
  | some e =>
    let pf := { b.progress with
      phase := RestorePhase.failed,
      errors := b.progress.errors ++ [e] }
    { snaps := progress0 :: b.snaps ++ [pf]
      effects := b.effects
      raised := some e
      raised_in := some b.progress.phase
      progress := pf
      result := {
        restore_id := request.restore_id, success := false,
        phase := RestorePhase.failed,
        resources_restored := pf.resources_processed,
        resources_failed := pf.errors.length,
        git_commits := [], error_summary := some e } }

def execute_restore (env : Env) (request : RestoreRequest)
    (progress0 : RestoreProgress) : RunOut :=
  assemble request progress0 (chainPhases env request progress0)

/-! ## Orchestrator bookkeeping (active map, history, public API) -/

/-- Lookup `self.active_restores.get(restore_id)` on the assoc-list model of the
Python dict. -/
def lookupActive (l : List (String × RestoreProgress)) (id : String) :
    Option RestoreProgress :=
  (l.find? (fun p => p.1 == id)).map (fun p => p.2)

/-- The progress record built by `start_restore`
(total_steps initialised to the literal 7). -/
def initial_progress : RestoreProgress :=
  { phase := RestorePhase.planning, percent_complete := 0,
    current_step := "Initializing restore operation",
    steps_completed := 0, total_steps := 7 }

/-- The orchestrator's shared bookkeeping: `self.active_restores` and
`self.restore_history`. -/
structure OrchestratorState where
  active_restores : List (String × RestoreProgress) := []
  restore_history : List RestoreResult := []

/-- Assignment `self.active_restores[request.restore_id] = progress` (dict
assignment: replace if present, append otherwise). -/
def insertActive (l : List (String × RestoreProgress)) (id : String)
    (p : RestoreProgress) : List (String × RestoreProgress) :=
  if l.any (fun q => q.1 == id) then
    l.map (fun q => if q.1 == id then (id, p) else q)
  else l ++ [(id, p)]

/-- The state change of `start_restore` (request validation aside): the
new progress record is registered before the background task starts. -/
def start_restore (st : OrchestratorState) (request : RestoreRequest) :
    OrchestratorState :=
  { st with active_restores :=
      insertActive st.active_restores request.restore_id initial_progress }

/-- Source `get_restore_status`. -/
def get_restore_status (st : OrchestratorState) (restore_id : String) :
    Option RestoreProgress :=
  lookupActive st.active_restores restore_id

/-- Source `cancel_restore`: `del` plus `True` when active, `False` otherwise. -/
def cancel_restore (st : OrchestratorState) (restore_id : String) :
    Bool × OrchestratorState :=
  if (lookupActive st.active_restores restore_id).isSome then
    (true, { st with active_restores :=
      st.active_restores.filter (fun q => ¬ q.1 = restore_id) })
  else (false, st)

/-- Python `l[-n:]` for a natural `n`: the whole list when `n = 0`
(`-0 == 0`), otherwise the suffix of length `min n (length l)`. -/
def pySliceFromNeg {α : Type} (l : List α) (n : Nat) : List α :=
  if n = 0 then l else l.drop (l.length - n)

/-- Source `list_restore_history`: `self.restore_history[-limit:]`. -/
def list_restore_history (st : OrchestratorState) (limit : Nat) :
    List RestoreResult :=
  pySliceFromNeg st.restore_history limit

/-- One whole restore as scheduled by `start_restore`: register progress,
run `_execute_restore`, then the `finally` block (append the result to
history, drop the active entry). -/
def run_restore (st : OrchestratorState) (env : Env)
    (request : RestoreRequest) : OrchestratorState × RunOut :=
  let st1 := start_restore st request
  let out := execute_restore env request initial_progress
  ({ active_restores :=
      st1.active_restores.filter (fun q => ¬ q.1 = request.restore_id),
     restore_history := st1.restore_history ++ [out.result] }, out)

/-! ## Concrete fixtures -/

/-- The `Namespace` resource of the source's `_load_backup_resources`
mock. -/
def nsResource : Resource :=
  { apiVersion := some "v1", kind := some "Namespace",
    metadata := some { name := some "production" },
    spec := some "" }

/-- The `Deployment` resource of the source's `_load_backup_resources`
mock (its `spec` payload is opaque to the orchestrator). -/
def deployResource : Resource :=
  { apiVersion := some "apps/v1", kind := some "Deployment",
    metadata := some { name := some "web-app",
                       namespace_field := some "production" },
    spec := some "replicas: 3" }

/-- Backup metadata for a backup holding 20 resources in total. -/
def mdHappy : BackupMetadata :=
  { backup_id := "b1", cluster_name := "source-cluster",
    timestamp := "2025-09-25T16:56:34", resources :=
      [("deployments", 12), ("services", 8)],
    size := 52428800, version := "1.0.0" }

/-- The end-to-end example request of spec §8. -/
def reqHappy : RestoreRequest :=
  { restore_id := "r1", backup_id := "b1",
    source_cluster := "source-cluster", target_cluster := "target-cluster",
    restore_mode := RestoreMode.full_cluster,
    dr_scenario := DRScenario.cluster_rebuild }

/-- An environment in which the backup resolves and every external
operation succeeds. -/
def envHappy : Env :=
  { load_backup_metadata := fun b => if b = "b1" then some mdHappy else none
    validate_cluster_access := fun _ => true
    validate_gitops_access := true
    validate_restore_permissions := true
    check_restore_conflicts := []
    backup_resources := [nsResource, deployResource]
    clone_result := Except.ok ()
    commit_result := Except.ok "3f2a9c1d"
    auto_sync := true
    now := "2025-09-25T17:00:00" }

/-- An environment whose object store cannot resolve any backup id. -/
def envNotFound : Env :=
  { envHappy with load_backup_metadata := fun _ => none }

/-- Environment `envHappy` with a non-empty conflict list from conflict detection. -/
def envConflicts : Env :=
  { envHappy with check_restore_conflicts := ["existing-deployment"] }

/-- Request `reqHappy` for a non-cluster-rebuild scenario. -/
def reqNamespaceRecovery : RestoreRequest :=
  { reqHappy with dr_scenario := DRScenario.namespace_recovery }

example :
    (execute_restore envHappy reqHappy initial_progress).result.success
      = true := by decide

example :
    (execute_restore envHappy reqHappy
      initial_progress).progress.resources_total = 20 := by decide

/-! ## Claim theorems -/

/-- C1: the spec's end-to-end example — request
`{restore_id: "r1", backup_id: "b1", restore_mode: full-cluster,
dr_scenario: cluster-rebuild}` against a backup of 20 resources with all
validations passing — claims `resources_restored == 20`, `success ==
true` and `git_commits` holding exactly one commit hash.  Evaluating the
embedded workflow at exactly that input: the run succeeds and the plan
does count 20 resources, but the terminal result carries
`resources_restored = 0` (the source never increments
`progress.resources_processed`) and `git_commits = []` (the source
hard-codes the empty list where its own comment says the commit hashes
belong), so the claimed 20/one-commit postcondition fails on the code. -/
theorem C1_end_to_end_example_run :
    (execute_restore envHappy reqHappy initial_progress).result.success
        = true ∧
    (execute_restore envHappy reqHappy
        initial_progress).progress.resources_total = 20 ∧
    (execute_restore envHappy reqHappy
        initial_progress).result.resources_restored = 0 ∧
    (execute_restore envHappy reqHappy
        initial_progress).result.git_commits = [] ∧
    ¬ (execute_restore envHappy reqHappy
        initial_progress).result.resources_restored = 20 := by
  decide

/-- C2 counterexample: conflict detection returns the non-empty list
`["existing-deployment"]`.  With `dr_scenario = namespace-recovery`
(≠ cluster-rebuild) the claim says the restore fails before any mutation;
the code instead records a warning and runs to a successful completion.
With `dr_scenario = cluster-rebuild` the claim says the conflicts are
appended to `progress.warnings`; the code leaves the warnings empty. -/
theorem C2_conflicts_counterexample :
    (execute_restore envConflicts reqNamespaceRecovery
        initial_progress).result.success = true ∧
    (execute_restore envConflicts reqNamespaceRecovery
        initial_progress).raised = none ∧
    (execute_restore envConflicts reqNamespaceRecovery
        initial_progress).progress.warnings =
      ["Conflict detected: existing-deployment"] ∧
    (execute_restore envConflicts reqHappy
        initial_progress).progress.warnings = [] := by
  decide

/-- C2 (amended): when the three boolean validators pass, a non-empty
conflict list NEVER makes the Validation phase fail; the conflicts are
appended to `progress.warnings` (prefixed `"Conflict detected: "`)
exactly when `dr_scenario ≠ cluster-rebuild`, and are ignored entirely
when `dr_scenario = cluster-rebuild`. -/
theorem C2_conflicts_warn_only (env : Env) (request : RestoreRequest)
    (p : RestoreProgress)
    (hca : env.validate_cluster_access request.target_cluster = true)
    (hga : env.validate_gitops_access = true)
    (hrp : env.validate_restore_permissions = true)
    (hcs : env.check_restore_conflicts ≠ []) :
    (phase_validation env request p).err = none ∧
    (request.dr_scenario ≠ DRScenario.cluster_rebuild →
      (phase_validation env request p).progress.warnings =
        p.warnings ++ env.check_restore_conflicts.map
          (fun c => "Conflict detected: " ++ c)) ∧
    (request.dr_scenario = DRScenario.cluster_rebuild →
      (phase_validation env request p).progress.warnings = p.warnings) := by
  unfold phase_validation
  simp only [hca, hga, hrp, Bool.true_eq_false, if_false]
  refine ⟨?_, ?_, ?_⟩
  · trivial
  · intro hdr
    simp [completeStep, hcs, hdr]
  · intro hdr
    simp [completeStep, hdr]

/-- C2 witness: the amended behaviour at the concrete conflicting
environment. -/
theorem C2_conflicts_warn_only_witness :
    (phase_validation envConflicts reqNamespaceRecovery
        initial_progress).err = none ∧
    (phase_validation envConflicts reqNamespaceRecovery
        initial_progress).progress.warnings =
      ["Conflict detected: existing-deployment"] := by
  have h := C2_conflicts_warn_only envConflicts reqNamespaceRecovery
    initial_progress (by decide) (by decide) (by decide) (by decide)
  refine ⟨h.1, ?_⟩
  have h2 := h.2.1 (by decide)
  simpa [initial_progress, envConflicts, envHappy] using h2

/-! ## Which phases produced which snapshots -/

theorem assemble_raised_eq (request : RestoreRequest)
    (p0 : RestoreProgress) (b : PhaseOut) :
    (assemble request p0 b).raised = b.err := by
  rcases hb : b.err with _ | e <;> simp [assemble, hb]

theorem phase_planning_snaps_phase (env : Env) (request : RestoreRequest)
    (p : RestoreProgress) :
    ∀ s ∈ (phase_planning env request p).snaps,
      s.phase = RestorePhase.planning := by
  intro s hs
  unfold phase_planning at hs
  rcases h : env.load_backup_metadata request.backup_id with _ | md <;>
    simp only [h] at hs
  · simp only [List.mem_singleton] at hs
    subst hs; rfl
  · simp only [List.mem_cons, List.not_mem_nil, or_false] at hs
    rcases hs with rfl | rfl <;> rfl

theorem phase_validation_snaps_phase (env : Env) (request : RestoreRequest)
    (p : RestoreProgress) :
    ∀ s ∈ (phase_validation env request p).snaps,
      s.phase = RestorePhase.validation_phase := by
  intro s hs
  unfold phase_validation at hs
  split at hs
  · simp only [List.mem_singleton] at hs
    subst hs; rfl
  · split at hs
    · simp only [List.mem_singleton] at hs
      subst hs; rfl
    · split at hs
      · simp only [List.mem_singleton] at hs
        subst hs; rfl
      · simp only [List.mem_cons, List.not_mem_nil, or_false] at hs
        rcases hs with rfl | rfl | rfl
        · rfl
        · split <;> rfl
        · split <;> rfl

theorem phase_preparation_snaps_phase (env : Env) (request : RestoreRequest)
    (p : RestoreProgress) :
    ∀ s ∈ (phase_preparation env request p).snaps,
      s.phase = RestorePhase.preparation := by
  intro s hs
  unfold phase_preparation at hs
  split at hs
  · simp only [List.mem_singleton] at hs
    subst hs; rfl
  · split at hs
    · simp only [List.mem_singleton] at hs
      subst hs; rfl
    · simp only [List.mem_cons, List.not_mem_nil, or_false] at hs
      rcases hs with rfl | rfl <;> rfl

theorem phase_gitops_sync_snaps_phase (env : Env) (request : RestoreRequest)
    (p : RestoreProgress) :
    ∀ s ∈ (phase_gitops_sync env request p).snaps,
      s.phase = RestorePhase.gitops_sync := by
  intro s hs
  unfold phase_gitops_sync at hs
  split at hs
  · simp only [List.mem_singleton] at hs
    subst hs; rfl
  · simp only [List.mem_cons, List.not_mem_nil, or_false] at hs
    rcases hs with rfl | rfl | rfl <;> rfl

theorem phase_verification_snaps_phase (env : Env) (request : RestoreRequest)
    (p : RestoreProgress) :
    ∀ s ∈ (phase_verification env request p).snaps,
      s.phase = RestorePhase.verification := by
  intro s hs
  unfold phase_verification at hs
  simp only [List.mem_cons, List.not_mem_nil, or_false] at hs
  rcases hs with rfl | rfl <;> rfl

theorem phase_verification_err (env : Env) (request : RestoreRequest)
    (p : RestoreProgress) : (phase_verification env request p).err = none :=
  rfl

theorem phase_cleanup_err (env : Env) (request : RestoreRequest)
    (p : RestoreProgress) : (phase_cleanup env request p).err = none :=
  rfl

theorem andThen_mk_some (s1 : List RestoreProgress) (f1 : List Effect)
    (e : String) (p1 : RestoreProgress) (f : RestoreProgress → PhaseOut) :
    andThen ⟨s1, f1, some e, p1⟩ f = ⟨s1, f1, some e, p1⟩ :=
  rfl

theorem andThen_mk_none (s1 : List RestoreProgress) (f1 : List Effect)
    (p1 : RestoreProgress) (f : RestoreProgress → PhaseOut) :
    andThen ⟨s1, f1, none, p1⟩ f =
      ⟨s1 ++ (f p1).snaps, f1 ++ (f p1).effects, (f p1).err,
        (f p1).progress⟩ :=
  rfl

theorem andThen_err_none_stop {acc : PhaseOut}
    {f : RestoreProgress → PhaseOut} {msg : String}
    (hf : ∀ q, (f q).err = none)
    (h : (andThen acc f).err = some msg) :
    acc.err = some msg ∧ (andThen acc f).snaps = acc.snaps := by
  obtain ⟨s1, f1, e1, p1⟩ := acc
  rcases e1 with _ | e
  · rw [andThen_mk_none] at h
    exact absurd ((hf p1).symm.trans h) (by simp)
  · exact ⟨h, rfl⟩

theorem andThen_snaps_sub (acc : PhaseOut) (f : RestoreProgress → PhaseOut) :
    ∀ s ∈ (andThen acc f).snaps,
      s ∈ acc.snaps ∨ s ∈ (f acc.progress).snaps := by
  obtain ⟨s1, f1, e1, p1⟩ := acc
  rcases e1 with _ | e
  · rw [andThen_mk_none]
    intro s hs
    exact List.mem_append.mp hs
  · rw [andThen_mk_some]
    intro s hs
    exact Or.inl hs

/-- No snapshot of the first five phases is ever in the Cleanup phase. -/
theorem chain5_snaps_not_cleanup (env : Env) (request : RestoreRequest)
    (p0 : RestoreProgress) :
    ∀ s ∈ (andThen (andThen (andThen (andThen
      (phase_planning env request p0)
      (phase_validation env request))
      (phase_preparation env request))
      (phase_gitops_sync env request))
      (phase_verification env request)).snaps,
      s.phase ≠ RestorePhase.cleanup := by
  intro s hs
  rcases andThen_snaps_sub _ _ s hs with hs | hs
  · rcases andThen_snaps_sub _ _ s hs with hs | hs
    · rcases andThen_snaps_sub _ _ s hs with hs | hs
      · rcases andThen_snaps_sub _ _ s hs with hs | hs
        · rw [phase_planning_snaps_phase env request p0 s hs]; decide
        · rw [phase_validation_snaps_phase env request _ s hs]; decide
      · rw [phase_preparation_snaps_phase env request _ s hs]; decide
    · rw [phase_gitops_sync_snaps_phase env request _ s hs]; decide
  · rw [phase_verification_snaps_phase env request _ s hs]; decide

/-- When the phase chain raises, no snapshot it produced is in the
Cleanup phase: Cleanup itself has no failure path, so a raise always
comes from an earlier phase, before Cleanup's entry. -/
theorem chainPhases_err_no_cleanup (env : Env) (request : RestoreRequest)
    (p0 : RestoreProgress) (msg : String)
    (h : (chainPhases env request p0).err = some msg) :
    ∀ s ∈ (chainPhases env request p0).snaps,
      s.phase ≠ RestorePhase.cleanup := by
  unfold chainPhases at h ⊢
  obtain ⟨h5, hs6⟩ :=
    andThen_err_none_stop (fun q => phase_cleanup_err env request q) h
  rw [hs6]
  exact chain5_snaps_not_cleanup env request p0

/-- C3 counterexample: with an unresolvable backup the Planning phase
raises, yet the run never enters the Cleanup phase (no snapshot carries
it) and performs none of Cleanup's external work (`effects = []`),
refuting the claim that the orchestrator "attempts the Cleanup phase on
a best-effort basis" after a failure. -/
theorem C3_counterexample_no_cleanup_attempt :
    ((execute_restore envNotFound reqHappy initial_progress).raised).isSome
        = true ∧
    RestorePhase.cleanup ∉
      ((execute_restore envNotFound reqHappy initial_progress).snaps.map
        (fun s => s.phase)) ∧
    (execute_restore envNotFound reqHappy initial_progress).effects
        = [] := by
  decide

/-- C3 (amended): for every restore in which a phase raises an unhandled
error, the orchestrator sets `progress.phase = Failed`, appends the
error message to `progress.errors`, and assembles a `RestoreResult` with
`success == false` and `error_summary` set to the causing error's
message — but it proceeds directly to result assembly WITHOUT attempting
the Cleanup phase (no snapshot of the run is in the Cleanup phase). -/
theorem C3_failure_handling (env : Env) (request : RestoreRequest)
    (msg : String)
    (h : (execute_restore env request initial_progress).raised = some msg) :
    (execute_restore env request initial_progress).progress.phase
        = RestorePhase.failed ∧
    msg ∈ (execute_restore env request initial_progress).progress.errors ∧
    (execute_restore env request initial_progress).result.success = false ∧
    (execute_restore env request initial_progress).result.error_summary
        = some msg ∧
    (execute_restore env request initial_progress).result.phase
        = RestorePhase.failed ∧
    RestorePhase.cleanup ∉
      ((execute_restore env request initial_progress).snaps.map
        (fun s => s.phase)) := by
  have hb : (chainPhases env request initial_progress).err = some msg := by
    rw [execute_restore, assemble_raised_eq] at h
    exact h
  unfold execute_restore assemble
  simp only [hb]
  refine ⟨trivial, ?_, trivial, trivial, trivial, ?_⟩
  · simp
  · intro hc
    obtain ⟨s, hsmem, hsph⟩ := List.mem_map.mp hc
    rcases List.mem_cons.mp hsmem with rfl | hsmem2
    · exact absurd hsph (by decide)
    · rcases List.mem_append.mp hsmem2 with hmid | hend2
      · exact chainPhases_err_no_cleanup env request initial_progress msg hb
          s hmid hsph
      · rw [List.mem_singleton.mp hend2] at hsph
        simp at hsph

/-- C3 witness: the amended failure handling at the concrete
not-found environment. -/
theorem C3_failure_handling_witness :
    (execute_restore envNotFound reqHappy initial_progress).result.success
        = false ∧
    (execute_restore envNotFound reqHappy
        initial_progress).result.error_summary =
      some "Backup b1 not found or inaccessible" := by
  have h := C3_failure_handling envNotFound reqHappy
    "Backup b1 not found or inaccessible" (by decide)
  exact ⟨h.2.2.1, h.2.2.2.1⟩

/-- C5: when the backup id cannot be resolved, Planning raises before
any external operation happened at all (`effects = []`, so in particular
no repository or cluster mutation), and the terminal result has
`success = false` with an `error_summary` that mentions the backup id. -/
theorem C5_unknown_backup_fails_early (env : Env) (request : RestoreRequest)
    (h : env.load_backup_metadata request.backup_id = none) :
    (execute_restore env request initial_progress).result.success = false ∧
    (execute_restore env request initial_progress).result.error_summary =
      some ("Backup " ++ request.backup_id ++
        " not found or inaccessible") ∧
    (∃ pre post,
      (execute_restore env request initial_progress).result.error_summary =
        some (pre ++ request.backup_id ++ post)) ∧
    (execute_restore env request initial_progress).effects = [] ∧
    (execute_restore env request initial_progress).raised_in =
      some RestorePhase.planning ∧
    (execute_restore env request initial_progress).result.phase =
      RestorePhase.failed := by
  unfold execute_restore chainPhases phase_planning assemble andThen
  simp only [h]
  refine ⟨by trivial, by trivial,
    ⟨"Backup ", " not found or inaccessible", by trivial⟩,
    by trivial, by trivial, by trivial⟩

/-- C5 witness: the unknown-backup behaviour at the concrete
environment whose store resolves no backup. -/
theorem C5_unknown_backup_fails_early_witness :
    (execute_restore envNotFound reqHappy initial_progress).effects = [] ∧
    (execute_restore envNotFound reqHappy initial_progress).raised_in =
      some RestorePhase.planning ∧
    (∃ pre post,
      (execute_restore envNotFound reqHappy
          initial_progress).result.error_summary =
        some (pre ++ "b1" ++ post)) := by
  have h := C5_unknown_backup_fails_early envNotFound reqHappy rfl
  exact ⟨h.2.2.2.1, h.2.2.2.2.1, h.2.2.1⟩

theorem lookupActive_filter_self (l : List (String × RestoreProgress))
    (id : String) :
    lookupActive (l.filter (fun q => ¬ q.1 = id)) id = none := by
  induction l with
  | nil => rfl
  | cons a t ih =>
    by_cases ha : a.1 = id
    · simpa [List.filter_cons, ha] using ih
    · simpa [List.filter_cons, ha, lookupActive, List.find?_cons_of_neg]
        using ih

/-- C9: `get_restore_status` yields the live progress exactly for ids in
the active map and nothing otherwise; a finished restore (whose `finally`
block moved it to history) is no longer reported; `cancel_restore`
returns `false` and leaves the state unchanged for an inactive id, and
for an active id returns `true`, removes the entry, and a subsequent
`get_restore_status` returns nothing. -/
theorem C9_status_and_cancel (st : OrchestratorState) (id : String)
    (p : RestoreProgress) (env : Env) (request : RestoreRequest) :
    (lookupActive st.active_restores id = some p →
      get_restore_status st id = some p) ∧
    (lookupActive st.active_restores id = none →
      get_restore_status st id = none) ∧
    (get_restore_status (run_restore st env request).1 request.restore_id
      = none) ∧
    (lookupActive st.active_restores id = none →
      cancel_restore st id = (false, st)) ∧
    (lookupActive st.active_restores id = some p →
      (cancel_restore st id).1 = true ∧
      get_restore_status (cancel_restore st id).2 id = none) := by
  refine ⟨fun h => h, fun h => h, ?_, ?_, ?_⟩
  · unfold run_restore get_restore_status
    exact lookupActive_filter_self _ _
  · intro h
    unfold cancel_restore
    rw [h]
    rfl
  · intro h
    unfold cancel_restore
    rw [h]
    simp only [Option.isSome_some, if_true]
    exact ⟨by trivial, lookupActive_filter_self _ _⟩

/-- Three terminal results for exercising the history API. -/
def rrA : RestoreResult :=
  { restore_id := "a", success := true, phase := RestorePhase.completed,
    resources_restored := 0, resources_failed := 0, git_commits := [] }

def rrB : RestoreResult :=
  { rrA with restore_id := "b" }

def rrC : RestoreResult :=
  { rrA with
    restore_id := "c", success := false,
    phase := RestorePhase.failed }

/-- A state with one active restore and a three-entry history. -/
def stHist : OrchestratorState :=
  { active_restores := [("r1", initial_progress)],
    restore_history := [rrA, rrB, rrC] }

/-- C9 witness. -/
theorem C9_status_and_cancel_witness :
    get_restore_status stHist "never-submitted" = none ∧
    (cancel_restore stHist "never-submitted") = (false, stHist) ∧
    (cancel_restore stHist "r1").1 = true ∧
    get_restore_status (cancel_restore stHist "r1").2 "r1" = none ∧
    get_restore_status (run_restore stHist envHappy reqHappy).1 "r1"
      = none := by
  have h1 := C9_status_and_cancel stHist "never-submitted" initial_progress
    envHappy reqHappy
  have h2 := C9_status_and_cancel stHist "r1" initial_progress
    envHappy reqHappy
  have hc := h2.2.2.2.2 (by decide)
  exact ⟨h1.2.1 (by decide), h1.2.2.2.1 (by decide), hc.1, hc.2, h2.2.2.1⟩

/-- C10: `list_restore_history` slices `history[-limit:]`, so `limit = 0`
returns the entire history (Python `-0 == 0`), and a positive limit
returns the suffix of length `min limit (length history)` — the most
recent results, in order, most-recent-last. -/
theorem C10_history_limit (st : OrchestratorState) (limit : Nat) :
    (list_restore_history st 0 = st.restore_history) ∧
    (0 < limit →
      (list_restore_history st limit).length =
        min limit st.restore_history.length ∧
      list_restore_history st limit =
        st.restore_history.drop (st.restore_history.length - limit) ∧
      list_restore_history st limit <:+ st.restore_history) := by
  constructor
  · simp [list_restore_history, pySliceFromNeg]
  · intro hl
    have hne : ¬ limit = 0 := Nat.pos_iff_ne_zero.mp hl
    unfold list_restore_history pySliceFromNeg
    simp only [hne, if_false]
    refine ⟨?_, by trivial, List.drop_suffix _ _⟩
    rw [List.length_drop]
    omega

/-- C10 witness: a three-entry history with `limit = 0` and
`limit = 2`. -/
theorem C10_history_limit_witness :
    list_restore_history stHist 0 = [rrA, rrB, rrC] ∧
    list_restore_history stHist 2 = [rrB, rrC] ∧
    (list_restore_history stHist 2).length = min 2 3 := by
  have h0 := (C10_history_limit stHist 2).1
  have h2 := (C10_history_limit stHist 2).2 (by decide)
  refine ⟨h0, ?_, h2.1⟩
  rw [h2.2.1]
  decide

/-! ## Transformer claims -/

/-- The labels dict of a resource (Python
`r.get('metadata', \x7b\x7d).get('labels', \x7b\x7d)`). -/
def Resource.labelsD (r : Resource) : List (String × String) :=
  match r.metadata with
  | some md => md.labels.getD []
  | none => []

/-- The annotations dict of a resource. -/
def Resource.annotationsD (r : Resource) : List (String × String) :=
  match r.metadata with
  | some md => md.annotations.getD []
  | none => []

/-- Field `metadata.name` of a resource, if any. -/
def Resource.nameD (r : Resource) : Option String :=
  match r.metadata with
  | some md => md.name
  | none => none

/-- Field `metadata.namespace` of a resource, if any. -/
def Resource.namespaceD (r : Resource) : Option String :=
  match r.metadata with
  | some md => md.namespace_field
  | none => none

/-- C4: the claim says the transformation returns a new manifest "and
leaves the input resource unchanged, including its nested metadata,
labels, and annotations maps".  The source's own comment says the same
(`# Create a copy to avoid modifying original`), but `dict.copy()` is
shallow: for any input that already has a `metadata` dict, the nested
`metadata`/`labels`/`annotations` objects are shared with the output and
mutated in place.  At the mock `Deployment` resource the post-call input
differs from the original, its nested metadata differs, and its labels
dict now carries the injected `restore-id` label. -/
theorem C4_transformer_mutates_input :
    (apply_gitops_transformations reqHappy "2025-09-25T17:00:00"
        deployResource).2 ≠ deployResource ∧
    (apply_gitops_transformations reqHappy "2025-09-25T17:00:00"
        deployResource).2.metadata ≠ deployResource.metadata ∧
    dictLookup ((apply_gitops_transformations reqHappy "2025-09-25T17:00:00"
        deployResource).2.labelsD) "restore.gitops.io/restore-id" =
      some "r1" ∧
    (apply_gitops_transformations reqHappy "2025-09-25T17:00:00"
        { spec := some "no-metadata" }).2 =
      { spec := some "no-metadata" } := by
  decide

theorem dictLookup_dictUpdate3_self (d : List (String × String))
    (k1 v1 k2 v2 k3 v3 : String) (h12 : k1 ≠ k2) (h13 : k1 ≠ k3)
    (h23 : k2 ≠ k3) :
    dictLookup (dictUpdate d [(k1, v1), (k2, v2), (k3, v3)]) k1 = some v1 ∧
    dictLookup (dictUpdate d [(k1, v1), (k2, v2), (k3, v3)]) k2 = some v2 ∧
    dictLookup (dictUpdate d [(k1, v1), (k2, v2), (k3, v3)]) k3
      = some v3 := by
  unfold dictUpdate
  simp only [List.foldl_cons, List.foldl_nil]
  refine ⟨?_, ?_, ?_⟩
  · rw [dictLookup_dictSet_other _ _ _ _ h13,
      dictLookup_dictSet_other _ _ _ _ h12, dictLookup_dictSet_self]
  · rw [dictLookup_dictSet_other _ _ _ _ h23, dictLookup_dictSet_self]
  · rw [dictLookup_dictSet_self]

/-- C7: every transformed manifest carries the three provenance labels
and three provenance annotations with the request's values; and when
`target_namespaces` is exactly one (non-empty) namespace and the
resource carries a non-empty `metadata.namespace`, the output's
namespace is rewritten to that single target while `kind` and
`metadata.name` are retained (the original `metadata.namespace` counts
as present when it is truthy in Python, i.e. a non-empty string). -/
theorem C7_provenance_and_namespace (request : RestoreRequest)
    (now : String) (r : Resource) (t s : String) :
    dictLookup ((apply_gitops_transformations request now r).1.labelsD)
      "restore.gitops.io/restore-id" = some request.restore_id ∧
    dictLookup ((apply_gitops_transformations request now r).1.labelsD)
      "restore.gitops.io/source-backup" = some request.backup_id ∧
    dictLookup ((apply_gitops_transformations request now r).1.labelsD)
      "restore.gitops.io/dr-scenario" = some request.dr_scenario.value ∧
    dictLookup ((apply_gitops_transformations request now
        r).1.annotationsD) "restore.gitops.io/restored-at" = some now ∧
    dictLookup ((apply_gitops_transformations request now
        r).1.annotationsD) "restore.gitops.io/source-cluster" =
      some request.source_cluster ∧
    dictLookup ((apply_gitops_transformations request now
        r).1.annotationsD) "restore.gitops.io/target-cluster" =
      some request.target_cluster ∧
    (apply_gitops_transformations request now r).1.kind = r.kind ∧
    (apply_gitops_transformations request now r).1.nameD = r.nameD ∧
    (request.target_namespaces = some [t] → r.namespaceD = some s →
      s ≠ "" →
      (apply_gitops_transformations request now r).1.namespaceD
        = some t) := by
  have hlab := dictLookup_dictUpdate3_self
    ((r.metadata.getD {}).labels.getD [])
    "restore.gitops.io/restore-id" request.restore_id
    "restore.gitops.io/source-backup" request.backup_id
    "restore.gitops.io/dr-scenario" request.dr_scenario.value
    (by decide) (by decide) (by decide)
  have hann := dictLookup_dictUpdate3_self
    ((r.metadata.getD {}).annotations.getD [])
    "restore.gitops.io/restored-at" now
    "restore.gitops.io/source-cluster" request.source_cluster
    "restore.gitops.io/target-cluster" request.target_cluster
    (by decide) (by decide) (by decide)
  unfold apply_gitops_transformations labelUpdates annotationUpdates
  unfold Resource.labelsD Resource.annotationsD Resource.nameD
    Resource.namespaceD
  refine ⟨?_, ?_, ?_, ?_, ?_, ?_, rfl, ?_, ?_⟩
  · simpa [labelUpdates] using hlab.1
  · simpa [labelUpdates] using hlab.2.1
  · simpa [labelUpdates] using hlab.2.2
  · simpa [annotationUpdates] using hann.1
  · simpa [annotationUpdates] using hann.2.1
  · simpa [annotationUpdates] using hann.2.2
  · cases r.metadata <;> rfl
  · intro htns hns hs
    rcases hmd : r.metadata with _ | md
    · rw [hmd] at hns
      simp at hns
    · rw [hmd] at hns
      have hns' : md.namespace_field = some s := hns
      simp only [Option.getD_some, htns, remapNamespace, hns']
      simp [hs]

/-! ## Idempotence of the transformer (C8) -/

theorem dictSet3_idem (L : List (String × String))
    (k1 v1 k2 v2 k3 v3 : String) (h12 : k1 ≠ k2) (h13 : k1 ≠ k3)
    (h23 : k2 ≠ k3) :
    dictSet (dictSet (dictSet
        (dictSet (dictSet (dictSet L k1 v1) k2 v2) k3 v3) k1 v1)
      k2 v2) k3 v3 =
    dictSet (dictSet (dictSet L k1 v1) k2 v2) k3 v3 := by
  have m1 : dictMemKey (dictSet (dictSet (dictSet L k1 v1) k2 v2) k3 v3) k1
      = true := by
    rw [dictMemKey_dictSet_other _ _ _ _ h13,
      dictMemKey_dictSet_other _ _ _ _ h12, dictMemKey_dictSet_self]
  have w1 : dictValAt (dictSet (dictSet (dictSet L k1 v1) k2 v2) k3 v3)
      k1 v1 :=
    dictValAt_dictSet_other _ _ _ _ _ h13
      (dictValAt_dictSet_other _ _ _ _ _ h12 (dictValAt_dictSet_self _ _ _))
  have e1 : dictSet (dictSet (dictSet (dictSet L k1 v1) k2 v2) k3 v3) k1 v1
      = dictSet (dictSet (dictSet L k1 v1) k2 v2) k3 v3 :=
    dictSet_eq_self _ _ _ m1 w1
  rw [e1]
  have m2 : dictMemKey (dictSet (dictSet (dictSet L k1 v1) k2 v2) k3 v3) k2
      = true := by
    rw [dictMemKey_dictSet_other _ _ _ _ h23, dictMemKey_dictSet_self]
  have w2 : dictValAt (dictSet (dictSet (dictSet L k1 v1) k2 v2) k3 v3)
      k2 v2 :=
    dictValAt_dictSet_other _ _ _ _ _ h23 (dictValAt_dictSet_self _ _ _)
  rw [dictSet_eq_self _ _ _ m2 w2]
  have m3 : dictMemKey (dictSet (dictSet (dictSet L k1 v1) k2 v2) k3 v3) k3
      = true := dictMemKey_dictSet_self _ _ _
  have w3 : dictValAt (dictSet (dictSet (dictSet L k1 v1) k2 v2) k3 v3)
      k3 v3 := dictValAt_dictSet_self _ _ _
  rw [dictSet_eq_self _ _ _ m3 w3]

theorem dictSet3_reapply_first (A : List (String × String))
    (k1 v1 w1 k2 v2 k3 v3 : String) (h12 : k1 ≠ k2) (h13 : k1 ≠ k3)
    (h23 : k2 ≠ k3) :
    dictSet (dictSet (dictSet
        (dictSet (dictSet (dictSet A k1 v1) k2 v2) k3 v3) k1 w1)
      k2 v2) k3 v3 =
    dictSet (dictSet (dictSet (dictSet A k1 v1) k2 v2) k3 v3) k1 w1 := by
  have m2 : dictMemKey
      (dictSet (dictSet (dictSet (dictSet A k1 v1) k2 v2) k3 v3) k1 w1) k2
      = true := by
    rw [dictMemKey_dictSet_other _ _ _ _ (Ne.symm h12),
      dictMemKey_dictSet_other _ _ _ _ h23, dictMemKey_dictSet_self]
  have q2 : dictValAt
      (dictSet (dictSet (dictSet (dictSet A k1 v1) k2 v2) k3 v3) k1 w1)
      k2 v2 :=
    dictValAt_dictSet_other _ _ _ _ _ (Ne.symm h12)
      (dictValAt_dictSet_other _ _ _ _ _ h23 (dictValAt_dictSet_self _ _ _))
  rw [dictSet_eq_self _ _ _ m2 q2]
  have m3 : dictMemKey
      (dictSet (dictSet (dictSet (dictSet A k1 v1) k2 v2) k3 v3) k1 w1) k3
      = true := by
    rw [dictMemKey_dictSet_other _ _ _ _ (Ne.symm h13),
      dictMemKey_dictSet_self]
  have q3 : dictValAt
      (dictSet (dictSet (dictSet (dictSet A k1 v1) k2 v2) k3 v3) k1 w1)
      k3 v3 :=
    dictValAt_dictSet_other _ _ _ _ _ (Ne.symm h13)
      (dictValAt_dictSet_self _ _ _)
  rw [dictSet_eq_self _ _ _ m3 q3]

theorem remapNamespace_idem (tns : Option (List String)) (ns : Option String) :
    remapNamespace tns (remapNamespace tns ns) = remapNamespace tns ns := by
  unfold remapNamespace
  rcases tns with _ | l
  · rfl
  · by_cases hl : l = []
    · simp [hl]
    · simp only [hl, if_false]
      rcases ns with _ | s
      · rfl
      · by_cases hs : s = ""
        · simp [hs]
        · simp only [hs, if_false]
          by_cases hlen : l.length = 1
          · simp only [hlen, if_true]
            by_cases hh : l.headD "" = ""
            · simp [hh]
            · simp [hh, hlen]
          · simp [hlen, hs]

/-- Rewriting only the `restored-at` annotation of a manifest — exactly
the difference the spec allows between one and two applications of the
transformer. -/
def setRestoredAt (m : Resource) (t : String) : Resource :=
  { m with metadata := m.metadata.map (fun md =>
      { md with annotations := some (dictSet (md.annotations.getD [])
          "restore.gitops.io/restored-at" t) }) }

/-- C8: the transformer is idempotent up to the `restored-at` timestamp:
applying it a second time (with timestamp `t2`) to an already-transformed
manifest produces exactly the once-transformed manifest with only its
`restored-at` annotation value replaced by `t2`.  In particular a second
application with the SAME timestamp reproduces the manifest verbatim. -/
theorem C8_transform_idempotent_mod_restored_at (request : RestoreRequest)
    (t1 t2 : String) (r : Resource) :
    (apply_gitops_transformations request t2
        (apply_gitops_transformations request t1 r).1).1 =
      setRestoredAt ((apply_gitops_transformations request t1 r).1) t2 := by
  simp only [apply_gitops_transformations, setRestoredAt, labelUpdates,
    annotationUpdates, dictUpdate, List.foldl_cons, List.foldl_nil,
    Option.getD_some, Option.map_some]
  simp only [Option.map_some', Resource.mk.injEq, Option.some.injEq,
    ResourceMeta.mk.injEq, eq_self_iff_true, true_and, and_true]
  refine ⟨?_, ?_, ?_⟩
  · exact remapNamespace_idem request.target_namespaces
      ((r.metadata.getD {}).namespace_field)
  · exact dictSet3_idem _ _ _ _ _ _ _ (by decide) (by decide) (by decide)
  · exact dictSet3_reapply_first _ _ _ _ _ _ _ _ (by decide) (by decide)
      (by decide)

/-! ## Happy-path phase order and progress (C6) -/

/-- Collapse consecutive duplicates — the sequence of distinct values
`progress.phase` moves through. -/
def dedupConsec : List RestorePhase → List RestorePhase
  | [] => []
  | [a] => [a]
  | a :: b :: rest =>
    if a = b then dedupConsec (b :: rest) else a :: dedupConsec (b :: rest)

set_option maxRecDepth 4000 in
/-- C6: for a restore whose backup resolves and whose validations and
external operations all succeed, `progress.phase` moves through exactly
Planning, Validation, Preparation, GitOpsSync, Verification, Cleanup,
Completed in that order; every snapshot except the Completed one carries
`percent_complete = steps_completed / total_steps * 100`;
`percent_complete` is non-decreasing along the run; and it equals 100
exactly at the Completed snapshot. -/
theorem C6_phase_order_and_percent (env : Env) (request : RestoreRequest)
    (md : BackupMetadata) (hash : String)
    (hmd : env.load_backup_metadata request.backup_id = some md)
    (hca : env.validate_cluster_access request.target_cluster = true)
    (hga : env.validate_gitops_access = true)
    (hrp : env.validate_restore_permissions = true)
    (hcl : env.clone_result = Except.ok ())
    (hcm : env.commit_result = Except.ok hash)
    (hmf : validate_gitops_manifests
      (transform_to_gitops request env.now env.backup_resources) =
        Except.ok ()) :
    dedupConsec ((execute_restore env request initial_progress).snaps.map
        (fun s => s.phase)) =
      [RestorePhase.planning, RestorePhase.validation_phase,
       RestorePhase.preparation, RestorePhase.gitops_sync,
       RestorePhase.verification, RestorePhase.cleanup,
       RestorePhase.completed] ∧
    List.Chain' (fun a b => a ≤ b)
      ((execute_restore env request initial_progress).snaps.map
        (fun s => s.percent_complete)) ∧
    (∀ s ∈ (execute_restore env request initial_progress).snaps,
      (s.percent_complete = 100 ↔ s.phase = RestorePhase.completed)) ∧
    (∀ s ∈ (execute_restore env request initial_progress).snaps,
      s.phase ≠ RestorePhase.completed →
        s.percent_complete =
          (s.steps_completed : ℚ) / (s.total_steps : ℚ) * 100) := by
  by_cases hC : env.check_restore_conflicts ≠ [] ∧
      request.dr_scenario ≠ DRScenario.cluster_rebuild
  all_goals
    simp only [execute_restore, chainPhases, assemble, andThen_mk_none,
      phase_planning, phase_validation, phase_preparation,
      phase_gitops_sync, phase_verification, phase_cleanup, completeStep,
      create_restore_plan, initial_progress, hmd, hca, hga, hrp, hcl, hcm,
      hmf, hC, ne_eq, not_false_eq_true, and_self, not_true_eq_false,
      and_false, false_and, Bool.true_eq_false, if_true, if_false,
      List.map_cons, List.map_nil]
  all_goals refine ⟨?_, ?_, ?_, ?_⟩
  all_goals try norm_num [dedupConsec, List.chain'_cons]
  all_goals try decide

/-- C6 witness: the happy-path phase order at the concrete all-passing
environment. -/
theorem C6_phase_order_and_percent_witness :
    dedupConsec ((execute_restore envHappy reqHappy
        initial_progress).snaps.map (fun s => s.phase)) =
      [RestorePhase.planning, RestorePhase.validation_phase,
       RestorePhase.preparation, RestorePhase.gitops_sync,
       RestorePhase.verification, RestorePhase.cleanup,
       RestorePhase.completed] ∧
    List.Chain' (fun a b => a ≤ b)
      ((execute_restore envHappy reqHappy initial_progress).snaps.map
        (fun s => s.percent_complete)) := by
  have h := C6_phase_order_and_percent envHappy reqHappy mdHappy "3f2a9c1d"
    (by decide) (by decide) (by decide) (by decide) rfl rfl rfl
  exact ⟨h.1, h.2.1⟩

/-- The §8 namespace-remap request: one target namespace `"prod"`. -/
def reqNsMap : RestoreRequest :=
  { reqHappy with target_namespaces := some ["prod"] }

/-- A resource in namespace `"default"`, as in the spec's example. -/
def defaultNsResource : Resource :=
  { apiVersion := some "v1", kind := some "ConfigMap",
    metadata := some { name := some "app-config",
                       namespace_field := some "default" } }

/-- C7 witness: the provenance labels and the `"default" → "prod"`
namespace remap at a concrete resource and request. -/
theorem C7_provenance_and_namespace_witness :
    dictLookup ((apply_gitops_transformations reqNsMap "t0"
        defaultNsResource).1.labelsD) "restore.gitops.io/restore-id" =
      some "r1" ∧
    dictLookup ((apply_gitops_transformations reqNsMap "t0"
        defaultNsResource).1.annotationsD) "restore.gitops.io/restored-at" =
      some "t0" ∧
    (apply_gitops_transformations reqNsMap "t0"
        defaultNsResource).1.namespaceD = some "prod" ∧
    (apply_gitops_transformations reqNsMap "t0"
        defaultNsResource).1.kind = some "ConfigMap" ∧
    (apply_gitops_transformations reqNsMap "t0"
        defaultNsResource).1.nameD = some "app-config" := by
  have h := C7_provenance_and_namespace reqNsMap "t0" defaultNsResource
    "prod" "default"
  refine ⟨h.1, h.2.2.2.1,
    h.2.2.2.2.2.2.2.2 (by decide) (by decide) (by decide), ?_, ?_⟩
  · exact h.2.2.2.2.2.2.1.trans (by decide)
  · exact h.2.2.2.2.2.2.2.1.trans (by decide)

end GitopsRestore
